import Mathlib

/-!
# Streaming completion pipeline — verification of the Uru-Chatbot core

Shallow embedding of the streaming completion pipeline of the Uru-Chatbot
backend: the OpenAI provider adapter (`app/adapters/openai_adapter.py`),
the message and conversation repositories
(`app/db/repositories/message.py`, `app/db/repositories/conversation.py`),
the request schema validator (`app/schemas/chat.py`) and the chat
orchestration endpoint (`app/api/endpoints/chat.py`).

Money amounts and Python floats entering arithmetic are modelled as `ℚ`;
Python ints as `ℤ` (or `ℕ` where the source value is a length/count);
fallible paths return explicit sum types.  The rendering of a Python
float by `json.dumps` is kept abstract (a `ℚ → String` parameter), since
shortest-float-repr is not part of this development.
-/

namespace Uru

/-! ## Provider adapter: price table and cost (openai_adapter.py) -/

/-- `OpenAIAdapter.__init__`: the static per-model price table
`self.model_pricing` — `(input, output)` rates in currency per 1000
tokens.  `none` for a model absent from the dict. -/
def model_pricing (ai_model : String) : Option (ℚ × ℚ) :=
  if ai_model = "gpt-4o" then some (0.005, 0.015)
  else if ai_model = "gpt-4o-mini" then some (0.00015, 0.0006)
  else if ai_model = "o1" then some (0.015, 0.06)
  else if ai_model = "o1-mini" then some (0.003, 0.012)
  else if ai_model = "gpt-4-turbo" then some (0.01, 0.03)
  else if ai_model = "gpt-4" then some (0.03, 0.06)
  else if ai_model = "gpt-3.5-turbo" then some (0.0015, 0.002)
  else none

/-- `OpenAIAdapter.calculate_cost(ai_model, total_tokens, completion_tokens)`:
returns `0.0` for a model absent from the price table; otherwise
`(input_tokens/1000)*input_rate + (completion_tokens/1000)*output_rate`
with `input_tokens = total_tokens - completion_tokens`. -/
def calculate_cost (ai_model : String) (total_tokens completion_tokens : ℤ) : ℚ :=
  match model_pricing ai_model with
  | none => 0
  | some pricing =>
      let input_tokens : ℤ := total_tokens - completion_tokens
      ((input_tokens : ℚ) / 1000) * pricing.1 + ((completion_tokens : ℚ) / 1000) * pricing.2

/-! ## Provider adapter: streaming (openai_adapter.py, generate_stream) -/

/-- One `{role, content}` message dict as passed to the provider. -/
structure ChatMsg where
  role : String
  content : String
deriving Repr, DecidableEq

/-- One chunk object delivered by the provider's HTTP stream.
`delta` is `chunk.choices[0].delta.content` (`none` when there are no
choices or the delta content is `None`); `usage` is
`(chunk.usage.total_tokens, chunk.usage.completion_tokens)` when the
chunk carries a truthy usage object. -/
structure ProviderChunk where
  delta : Option String
  usage : Option (ℤ × ℤ)
deriving Repr, DecidableEq

/-- One run of the provider transport: the chunks it delivers, and
`failAt = some (k, msg)` when the underlying call raises an exception
with text `msg` after `k` chunks were fully processed (`k = 0` covers a
failure of `client.chat.completions.create` itself). -/
structure ProviderRun where
  chunks : List ProviderChunk
  failAt : Option (ℕ × String)
deriving Repr, DecidableEq

/-- `if chunk.choices and chunk.choices[0].delta.content:` — the delta is
yielded only when present and truthy (a non-empty string). -/
def truthyDelta (c : ProviderChunk) : Option String :=
  match c.delta with
  | some s => if s = "" then none else some s
  | none => none

/-- Running `total_tokens` / `completion_tokens` assignment: each chunk
with a truthy usage object overwrites both counters (initially `(0, 0)`). -/
def usageFold (chunks : List ProviderChunk) : ℤ × ℤ :=
  chunks.foldl (fun acc c => match c.usage with
    | some u => u
    | none => acc) (0, 0)

/-- `sum(len(msg.get("content", "")) for msg in messages)`. -/
def promptLen (messages : List ChatMsg) : ℕ :=
  messages.foldl (fun n m => n + m.content.length) 0

/-- The metadata dict attached to each yielded item of
`generate_stream` (its `"type"` key is the constructor). -/
inductive StreamMeta where
  /-- `{"type": "content", "chunk": chunk}` -/
  | content (chunk : String)
  /-- `{"type": "complete", "total_tokens": …, "completion_tokens": …,
  "processing_time": …, "cost_estimate": …, "model_used": …,
  "full_content": …}` -/
  | complete (total_tokens completion_tokens : ℤ) (processing_time : ℚ)
      (cost_estimate : ℚ) (model_used : String) (full_content : String)
  /-- `{"type": "error", "error": …, "processing_time": …, "model_used": …}` -/
  | error (error : String) (processing_time : ℚ) (model_used : String)
deriving Repr, DecidableEq

/-- `OpenAIAdapter.generate_stream(messages, ai_model, api_key, **kwargs)`:
the finite sequence of `(text, metadata)` items the async generator
yields for one provider run.  Every transport failure is caught by the
surrounding `try`/`except` and converted into a terminal error item —
the embedding is a total function, mirroring that no exception escapes.
`ptime` stands for the wall-clock `time.time() - start_time` measured at
the terminal item. -/
def generate_stream (run : ProviderRun) (messages : List ChatMsg)
    (ai_model : String) (ptime : ℚ) : List (String × StreamMeta) :=
  match run.failAt with
  | some e =>
      (((run.chunks.take e.1).filterMap truthyDelta).map
        (fun s => (s, StreamMeta.content s)))
      ++ [("Error: " ++ e.2, StreamMeta.error e.2 ptime ai_model)]
  | none =>
      let contents := run.chunks.filterMap truthyDelta
      let full_content := String.join contents
      let u := usageFold run.chunks
      let tc : ℤ × ℤ :=
        if u.1 = 0 then
          let estimated_completion : ℕ := full_content.length / 4
          let estimated_input : ℕ := promptLen messages / 4
          ((estimated_completion + estimated_input : ℕ), (estimated_completion : ℕ))
        else u
      let cost := calculate_cost ai_model tc.1 tc.2
      (contents.map (fun s => (s, StreamMeta.content s)))
      ++ [("", StreamMeta.complete tc.1 tc.2 ptime cost ai_model full_content)]

/-! ## JSON rendering (`json.dumps` on the three payload dicts) -/

/-- Lowercase hexadecimal digit. -/
def hexDigit (n : ℕ) : Char :=
  if n < 10 then Char.ofNat (48 + n) else Char.ofNat (87 + n)

/-- Four lowercase hex digits, as in Python's `\uXXXX` escapes. -/
def hex4 (n : ℕ) : String :=
  String.mk [hexDigit (n / 4096 % 16), hexDigit (n / 256 % 16),
    hexDigit (n / 16 % 16), hexDigit (n % 16)]

/-- `\uXXXX` escape of a code point (surrogate pair above the BMP),
as `json.dumps` with its default `ensure_ascii=True` produces. -/
def uEscape (n : ℕ) : String :=
  if n < 65536 then "\\u" ++ hex4 n
  else
    "\\u" ++ hex4 (55296 + (n - 65536) / 1024) ++ "\\u" ++ hex4 (56320 + (n - 65536) % 1024)

/-- How `json.dumps` renders one character inside a string literal:
the two-character escapes for `"`, `\`, and the C0 controls with short
names; `\uXXXX` for the other controls and for anything outside
printable ASCII. -/
def pyJsonEscapeChar (c : Char) : String :=
  if c = '"' then "\\\""
  else if c = '\\' then "\\\\"
  else if c = '\n' then "\\n"
  else if c = '\r' then "\\r"
  else if c = '\t' then "\\t"
  else if c = Char.ofNat 8 then "\\b"
  else if c = Char.ofNat 12 then "\\f"
  else if c.toNat < 32 || 126 < c.toNat then uEscape c.toNat
  else String.mk [c]

/-- `json.dumps` of a Python `str`. -/
def pyJsonStr (s : String) : String :=
  "\"" ++ String.join (s.data.map pyJsonEscapeChar) ++ "\""

/-- `json.dumps({'content': content, 'type': 'chunk'})` — insertion
order of the dict keys, `", "` / `": "` default separators. -/
def chunk_payload (content : String) : String :=
  "\x7b\"content\": " ++ pyJsonStr content ++ ", \"type\": \"chunk\"\x7d"

/-- `json.dumps({'type': 'complete', 'message_id': id, 'cost': cost})`;
`costStr` is the rendering of the float `cost`. -/
def complete_payload (message_id : ℤ) (costStr : String) : String :=
  "\x7b\"type\": \"complete\", \"message_id\": " ++ toString message_id
    ++ ", \"cost\": " ++ costStr ++ "\x7d"

/-- `json.dumps({'type': 'error', 'error': error})`. -/
def error_payload (error : String) : String :=
  "\x7b\"type\": \"error\", \"error\": " ++ pyJsonStr error ++ "\x7d"

/-- The wire frame the chat endpoint yields for one payload:
`f"data: {json.dumps(...)}\n\n"`. -/
def sse_frame (payload : String) : String := "data: " ++ payload ++ "\n\n"

/-! ## Message repository (db/repositories/message.py) -/

/-- The row `MessageRepository.create` persists.  The call computes
`content_hash = hashlib.sha256(content.encode()).hexdigest()` and passes
its remaining arguments through; the message text itself is NOT among
the persisted fields.  `sha256hex` abstracts the hex digest; `id` and
`created_at` abstract the primary key and `server_default=func.now()`
timestamp the database assigns.  `token_count` is `ℚ` because the chat
endpoint passes the float `len(message.split()) * 1.3` for the user row
and an int for the assistant row. -/
structure StoredMessage where
  id : ℤ
  conversation_id : ℤ
  role : String
  content_hash : String
  token_count : ℚ
  ai_model : Option String
  cost_estimate : ℚ
  processing_time : Option ℚ
  is_error : Bool
  error_type : Option String
  message_metadata : Option String
  created_at : ℤ
deriving Repr, DecidableEq

/-- `MessageRepository.create(conversation_id, role, content, token_count,
ai_model, cost_estimate, processing_time, is_error, error_type,
message_metadata)`: the persisted row. -/
def MessageRepository_create (sha256hex : String → String) (id : ℤ)
    (created_at : ℤ) (conversation_id : ℤ) (role : String) (content : String)
    (token_count : ℚ) (ai_model : Option String) (cost_estimate : ℚ)
    (processing_time : Option ℚ) (is_error : Bool) (error_type : Option String)
    (message_metadata : Option String) : StoredMessage where
  id := id
  conversation_id := conversation_id
  role := role
  content_hash := sha256hex content
  token_count := token_count
  ai_model := ai_model
  cost_estimate := cost_estimate
  processing_time := processing_time
  is_error := is_error
  error_type := error_type
  message_metadata := message_metadata
  created_at := created_at

/-- `MessageRepository.get_recent_messages(conversation_id, limit)`:
order the conversation's rows by `created_at` descending, take `limit`,
and reverse back into chronological order. -/
def get_recent_messages (ledger : List StoredMessage) (conversation_id : ℤ)
    (limit : ℕ) : List StoredMessage :=
  ((((ledger.filter (fun m => m.conversation_id == conversation_id)).mergeSort
      (fun a b => decide (b.created_at ≤ a.created_at))).take limit)).reverse

/-- Result shape of `MessageRepository.get_conversation_stats`. -/
structure ConvStats where
  message_count : ℤ
  total_tokens : ℚ
  total_cost : ℚ
  last_message_at : Option ℤ
deriving Repr, DecidableEq

/-- `MessageRepository.get_conversation_stats(conversation_id)`:
`COUNT(id)`, `SUM(token_count)`, `SUM(cost_estimate)`, `MAX(created_at)`
over the conversation's rows, with SQL `NULL` collapsed to `0` by the
`or 0` defaults. -/
def get_conversation_stats (ledger : List StoredMessage)
    (conversation_id : ℤ) : ConvStats :=
  let ms := ledger.filter (fun m => m.conversation_id == conversation_id)
  { message_count := ms.length
    total_tokens := ms.foldl (fun a m => a + m.token_count) 0
    total_cost := ms.foldl (fun a m => a + m.cost_estimate) 0
    last_message_at := ms.foldl (fun a m => match a with
      | none => some m.created_at
      | some t => some (max t m.created_at)) none }

/-! ## Conversation aggregates and the endpoint's effect trace -/

/-- The aggregate fields of a Conversation row that the commit step may
touch. -/
structure ConversationAgg where
  message_count : ℤ
  total_tokens : ℚ
  estimated_cost : ℚ
  last_message_at : Option ℤ
deriving Repr, DecidableEq

/-- Modelled from the spec: `ConversationRepository.update_stats` is
invoked by the chat endpoint but has no definition in the repository's
files; per `Ledger.updateAggregates(conversationId, messageCount,
totalTokens, cost, lastMessageAt)` it overwrites the conversation's
aggregate counters and `last_message_at` with the supplied values. -/
def ConversationRepository_update_stats (_agg : ConversationAgg)
    (message_count : ℤ) (total_tokens : ℚ) (estimated_cost : ℚ)
    (last_message_at : Option ℤ) : ConversationAgg :=
  { message_count := message_count
    total_tokens := total_tokens
    estimated_cost := estimated_cost
    last_message_at := last_message_at }

/-- One externally visible effect of the chat endpoint, in order: a
message-repository write, the conversation-aggregate update, or one SSE
frame handed to the transport. -/
inductive Action where
  | writeMessage (m : StoredMessage)
  | updateStats (message_count : ℤ) (total_tokens : ℚ) (estimated_cost : ℚ)
      (last_message_at : Option ℤ)
  | emitFrame (frame : String)
deriving Repr, DecidableEq

/-- How one effect changes a conversation's aggregate fields: only the
aggregate update touches them. -/
def applyAction (agg : ConversationAgg) : Action → ConversationAgg
  | Action.updateStats mc tt ec lm => ConversationRepository_update_stats agg mc tt ec lm
  | _ => agg

/-- Aggregate state after a trace of effects. -/
def applyActions (agg : ConversationAgg) (tr : List Action) : ConversationAgg :=
  tr.foldl applyAction agg

/-! ## Request schema (schemas/chat.py) -/

/-- Python `str.strip()` / `str.split()` whitespace (the ASCII set). -/
def pyIsSpace (c : Char) : Bool :=
  c = ' ' || c = '\t' || c = '\n' || c = '\r' || c = Char.ofNat 11 || c = Char.ofNat 12

/-- Python `s.strip()`: drop leading and trailing whitespace. -/
def pyStrip (s : String) : String :=
  String.mk (((s.data.dropWhile pyIsSpace).reverse.dropWhile pyIsSpace).reverse)

/-- `len(s.split())`: the number of maximal whitespace-free words. -/
def pyWordCount (s : String) : ℕ :=
  (s.data.foldl (fun st c =>
      if pyIsSpace c then (st.1, false)
      else (if st.2 then st.1 else st.1 + 1, true))
    ((0 : ℕ), false)).1

/-- `ChatRequest.message_not_empty` (pydantic validator):
`if not v or not v.strip(): raise ValueError('Message cannot be empty')`,
else `return v.strip()`. -/
def message_not_empty (v : String) : Except String String :=
  if v = "" ∨ pyStrip v = "" then Except.error "Message cannot be empty"
  else Except.ok (pyStrip v)

/-! ## Chat endpoint orchestration (api/endpoints/chat.py) -/

/-- The fields of a Conversation row the endpoint reads. -/
structure Conversation where
  id : ℤ
  model : String
  system_prompt : Option String
deriving Repr, DecidableEq

/-- The fields of a parsed `ChatRequest` the endpoint uses (`message`
already passed the schema validator). -/
structure ChatRequest where
  conversation_id : ℤ
  message : String
  api_key : String
  model : Option String
deriving Repr, DecidableEq

/-- chat.py lines 90–97: the `messages` list handed to the adapter — the
conversation's system prompt when truthy, then the new user message.
The recent history loaded at line 85 is never appended (the comment at
lines 95–96 notes content is not stored to rebuild it from). -/
def build_messages (conversation : Conversation) (message : String) : List ChatMsg :=
  (match conversation.system_prompt with
   | some sp => if sp = "" then [] else [ChatMsg.mk "system" sp]
   | none => []) ++ [ChatMsg.mk "user" message]

/-- `token_count=len(request.message.split()) * 1.3` of the user row. -/
def userTokenCount (message : String) : ℚ := (pyWordCount message : ℚ) * 1.3

/-- The body of the `async for` loop in `generate_response`
(chat.py lines 105–151), folded over the adapter's items: a content item
extends the accumulator and yields a chunk frame; a complete item writes
the assistant row (content = the metadata's `full_content`), recomputes
the conversation stats over the ledger and updates the aggregates, then
yields the complete frame; an error item writes the error-flagged row
and yields the error frame.  `ledger` carries the conversation's
persisted rows, `nextId`/`now` the ids and timestamp the database
assigns to new rows. -/
def generate_response (sha256hex : String → String) (floatRepr : ℚ → String)
    (conversation_id : ℤ) (now : ℤ) :
    List (String × StreamMeta) → String → List StoredMessage → ℤ → List Action
  | [], _, _, _ => []
  | (content, StreamMeta.content _) :: rest, full_content, ledger, nextId =>
      Action.emitFrame (sse_frame (chunk_payload content)) ::
        generate_response sha256hex floatRepr conversation_id now rest
          (full_content ++ content) ledger nextId
  | (_, StreamMeta.complete total_tokens _completion pt cost mu fullc) :: rest,
      full_content, ledger, nextId =>
      let assistant_message := MessageRepository_create sha256hex nextId now
        conversation_id "assistant" fullc (total_tokens : ℚ) (some mu) cost
        (some pt) false none none
      let ledger1 := ledger ++ [assistant_message]
      let stats := get_conversation_stats ledger1 conversation_id
      Action.writeMessage assistant_message ::
      Action.updateStats stats.message_count stats.total_tokens stats.total_cost
        stats.last_message_at ::
      Action.emitFrame (sse_frame (complete_payload nextId (floatRepr cost))) ::
        generate_response sha256hex floatRepr conversation_id now rest
          full_content ledger1 (nextId + 1)
  | (_, StreamMeta.error emsg pt _mu) :: rest, full_content, ledger, nextId =>
      let error_message := MessageRepository_create sha256hex nextId now
        conversation_id "assistant" ("Error: " ++ emsg) 0 none 0 (some pt)
        true (some "api_error") none
      Action.writeMessage error_message ::
      Action.emitFrame (sse_frame (error_payload emsg)) ::
        generate_response sha256hex floatRepr conversation_id now rest
          full_content (ledger ++ [error_message]) (nextId + 1)

/-- chat.py lines 100–155: the whole generator including its
`try`/`except`.  `exc = some (j, emsg)` models an exception with text
`emsg` surfacing at the `async for` resumption after `j` items were
handled; the handler yields one error frame (`str(e)` as the payload)
and writes nothing further. -/
def generate_response_run (sha256hex : String → String) (floatRepr : ℚ → String)
    (conversation_id : ℤ) (now : ℤ) (items : List (String × StreamMeta))
    (ledger : List StoredMessage) (nextId : ℤ)
    (exc : Option (ℕ × String)) : List Action :=
  match exc with
  | none => generate_response sha256hex floatRepr conversation_id now items "" ledger nextId
  | some e =>
      generate_response sha256hex floatRepr conversation_id now (items.take e.1) "" ledger nextId
        ++ [Action.emitFrame (sse_frame (error_payload e.2))]

/-- `settings.MAX_MESSAGE_LENGTH` (core/config.py). -/
def MAX_MESSAGE_LENGTH : ℕ := 10000

/-- The out-of-scope collaborators' answers the endpoint consumes before
streaming: the permission flag, the conversation lookup
(`ConversationRepository.get_by_id`), the adapter-registry lookup
(`AdapterFactory.get_adapter("openai")`), and the `"valid"` flag of
`adapter.validate_api_key(request.api_key)`. -/
structure SendEnv where
  can_create_conversations : Bool
  conversation : Option Conversation
  adapter_available : Bool
  key_valid : Bool
deriving Repr, DecidableEq

/-- Outcome of `send_message`: a synchronous `HTTPException` with its
status code, or a `StreamingResponse` whose iteration produces the given
effect trace. -/
inductive SendResult where
  | httpError (statusCode : ℕ)
  | stream (actions : List Action)
deriving Repr, DecidableEq

/-- `request.model or conversation.model` (chat.py line 107): Python `or`
falls through on a falsy (absent or empty) requested model. -/
def adapter_model (req : ChatRequest) (conversation : Conversation) : String :=
  match req.model with
  | some m => if m = "" then conversation.model else m
  | none => conversation.model

/-- The item sequence the adapter yields for one chat request: the
message list built by the endpoint, the resolved model. -/
def adapter_items (req : ChatRequest) (conversation : Conversation)
    (run : ProviderRun) (ptime : ℚ) : List (String × StreamMeta) :=
  generate_stream run (build_messages conversation req.message)
    (adapter_model req conversation) ptime

/-- The row written for the user's input (chat.py lines 77–82). -/
def user_row (sha256hex : String → String) (nextId : ℤ) (now : ℤ)
    (conversation : Conversation) (req : ChatRequest) : StoredMessage :=
  MessageRepository_create sha256hex nextId now conversation.id "user"
    req.message (userTokenCount req.message) none 0 none false none none

/-- `send_message` (chat.py lines 27–166): the validation ladder
(403 permission, 404 unknown conversation, 400 message too long,
500 no adapter, 400 invalid key), then the synchronous user-row write,
then the streaming response over the adapter's items. -/
def send_message (sha256hex : String → String) (floatRepr : ℚ → String)
    (env : SendEnv) (req : ChatRequest) (run : ProviderRun)
    (ledger : List StoredMessage) (nextId : ℤ) (now : ℤ) (ptime : ℚ)
    (exc : Option (ℕ × String)) : SendResult :=
  if ¬ env.can_create_conversations then SendResult.httpError 403
  else match env.conversation with
  | none => SendResult.httpError 404
  | some conversation =>
    if MAX_MESSAGE_LENGTH < req.message.length then SendResult.httpError 400
    else if ¬ env.adapter_available then SendResult.httpError 500
    else if ¬ env.key_valid then SendResult.httpError 400
    else
      let user_message := user_row sha256hex nextId now conversation req
      let ledger1 := ledger ++ [user_message]
      let items := adapter_items req conversation run ptime
      SendResult.stream (Action.writeMessage user_message ::
        generate_response_run sha256hex floatRepr conversation.id now items
          ledger1 (nextId + 1) exc)

/-! ## Observations on effect traces -/

/-- Number of message-repository writes in a trace. -/
def messageWriteCount (tr : List Action) : ℕ :=
  (tr.filter fun a => match a with
    | Action.writeMessage _ => true
    | _ => false).length

/-- Number of error-flagged message writes in a trace. -/
def errorWriteCount (tr : List Action) : ℕ :=
  (tr.filter fun a => match a with
    | Action.writeMessage m => m.is_error
    | _ => false).length

/-- Number of conversation-aggregate updates in a trace. -/
def statsUpdateCount (tr : List Action) : ℕ :=
  (tr.filter fun a => match a with
    | Action.updateStats _ _ _ _ => true
    | _ => false).length

/-- The three wire shapes a frame of the chat stream may take:
`data: <json>\n\n` with a chunk, complete or error JSON payload. -/
def wire_frame_shapes (floatRepr : ℚ → String) (s : String) : Prop :=
  (∃ c, s = sse_frame (chunk_payload c)) ∨
  (∃ i q, s = sse_frame (complete_payload i (floatRepr q))) ∨
  (∃ e, s = sse_frame (error_payload e))

/-- Per-action frame predicate: every emitted frame has one of the
three wire shapes; non-frame actions are unconstrained. -/
def frame_shape_ok (floatRepr : ℚ → String) : Action → Prop
  | Action.emitFrame s => wire_frame_shapes floatRepr s
  | _ => True

/-! ## Concrete test fixtures (inputs for the evaluation theorems) -/

/-- Stand-in for the hex digest in concrete evaluations. -/
def hashFx : String → String := fun s => "#" ++ s

/-- Stand-in for float rendering in concrete evaluations. -/
def floatFx : ℚ → String := fun _ => "0.0"

/-- A conversation without a system prompt. -/
def convFx : Conversation := ⟨1, "gpt-4o", none⟩

/-- A collaborator environment in which every validation step passes. -/
def envFx : SendEnv := ⟨true, some convFx, true, true⟩

/-- A parsed chat request on that conversation. -/
def reqFx : ChatRequest := ⟨1, "Hi", "key", some "gpt-4o"⟩

/-- A prior assistant turn already persisted on the conversation. -/
def histRowFx : StoredMessage :=
  ⟨7, 1, "assistant", "#prior", 0, none, 0, none, false, none, none, 5⟩

/-! ## Helper lemmas -/

/-- Every rate pair in the price table has a non-negative input rate and
an output rate at least the input rate. -/
theorem model_pricing_rates (m : String) (p : ℚ × ℚ)
    (h : model_pricing m = some p) : 0 ≤ p.1 ∧ p.1 ≤ p.2 := by
  unfold model_pricing at h
  split_ifs at h <;> (cases h; constructor <;> norm_num)

theorem dropWhile_dropWhile {α : Type} (p : α → Bool) (l : List α) :
    (l.dropWhile p).dropWhile p = l.dropWhile p := by
  induction l with
  | nil => rfl
  | cons x xs ih =>
      by_cases h : p x
      · simp [List.dropWhile_cons, h, ih]
      · simp [List.dropWhile_cons, h]

theorem dropWhile_length_le {α : Type} (p : α → Bool) (l : List α) :
    (l.dropWhile p).length ≤ l.length := by
  induction l with
  | nil => simp
  | cons x xs ih =>
      by_cases h : p x
      · rw [List.dropWhile_cons, if_pos h]
        exact ih.trans (Nat.le_succ _)
      · rw [List.dropWhile_cons, if_neg h]

theorem dropWhile_take {α : Type} (p : α → Bool) (l : List α)
    (h : l.dropWhile p = l) (k : ℕ) : (l.take k).dropWhile p = l.take k := by
  cases l with
  | nil => simp
  | cons x xs =>
      have hx : p x = false := by
        rcases Bool.eq_false_or_eq_true (p x) with ht | hf
        · exfalso
          rw [List.dropWhile_cons, if_pos ht] at h
          have hlen := dropWhile_length_le p xs
          rw [h] at hlen
          simp at hlen
        · exact hf
      cases k with
      | zero => simp
      | succ k => simp [List.dropWhile_cons, hx]

/-- Stripping is idempotent. -/
theorem pyStrip_idempotent (s : String) : pyStrip (pyStrip s) = pyStrip s := by
  unfold pyStrip
  apply congrArg String.mk
  show ((((((s.data.dropWhile pyIsSpace).reverse.dropWhile pyIsSpace).reverse).dropWhile
      pyIsSpace).reverse.dropWhile pyIsSpace)).reverse = _
  set p := pyIsSpace
  set l1 := s.data.dropWhile p with hl1
  have h1 : l1.dropWhile p = l1 := dropWhile_dropWhile p s.data
  set r := l1.reverse.dropWhile p with hr
  have hsplit : l1.reverse.takeWhile p ++ r = l1.reverse :=
    List.takeWhile_append_dropWhile p l1.reverse
  have hpre : l1 = r.reverse ++ (l1.reverse.takeWhile p).reverse := by
    have := congrArg List.reverse hsplit
    simpa [List.reverse_append] using this.symm
  have htake : r.reverse = l1.take r.reverse.length := by
    conv_rhs => rw [hpre]
    rw [List.take_left]
  have hA : r.reverse.dropWhile p = r.reverse := by
    rw [htake]
    exact dropWhile_take p l1 h1 _
  have hB : r.dropWhile p = r := dropWhile_dropWhile p l1.reverse
  rw [hA, List.reverse_reverse, hB]

/-- The `full_content` accumulator of the generator is dead: the actions
produced do not depend on it (the assistant row stores the adapter's own
`full_content`). -/
theorem generate_response_full_irrelevant (sha : String → String)
    (fR : ℚ → String) (cid now : ℤ) :
    ∀ (items : List (String × StreamMeta)) (f₁ f₂ : String)
      (ledger : List StoredMessage) (nextId : ℤ),
      generate_response sha fR cid now items f₁ ledger nextId =
        generate_response sha fR cid now items f₂ ledger nextId := by
  intro items
  induction items with
  | nil => intro f₁ f₂ ledger nextId; rfl
  | cons it rest ih =>
      intro f₁ f₂ ledger nextId
      obtain ⟨s, meta⟩ := it
      cases meta with
      | content c =>
          simp only [generate_response]
          rw [ih]
      | complete a b c d e f =>
          simp only [generate_response]
          rw [ih]
      | error a b c =>
          simp only [generate_response]
          rw [ih]

/-- Every message row the generator writes has role `"assistant"`. -/
theorem generate_response_writes_role (sha : String → String)
    (fR : ℚ → String) (cid now : ℤ) :
    ∀ (items : List (String × StreamMeta)) (full : String)
      (ledger : List StoredMessage) (nextId : ℤ) (m : StoredMessage),
      Action.writeMessage m ∈ generate_response sha fR cid now items full ledger nextId →
      m.role = "assistant" := by
  intro items
  induction items with
  | nil =>
      intro full ledger nextId m hm
      simp [generate_response] at hm
  | cons it rest ih =>
      intro full ledger nextId m hm
      obtain ⟨s, meta⟩ := it
      cases meta with
      | content c =>
          simp only [generate_response, List.mem_cons] at hm
          rcases hm with h | h
          · exact absurd h (by simp)
          · exact ih _ _ _ _ h
      | complete a b c d e f =>
          simp only [generate_response, List.mem_cons] at hm
          rcases hm with h | h | h | h
          · cases h
            rfl
          · exact absurd h (by simp)
          · exact absurd h (by simp)
          · exact ih _ _ _ _ h
      | error a b c =>
          simp only [generate_response, List.mem_cons] at hm
          rcases hm with h | h | h
          · cases h
            rfl
          · exact absurd h (by simp)
          · exact ih _ _ _ _ h

/-- Every frame the generator emits has one of the three wire shapes. -/
theorem generate_response_frames_shape (sha : String → String)
    (fR : ℚ → String) (cid now : ℤ) :
    ∀ (items : List (String × StreamMeta)) (full : String)
      (ledger : List StoredMessage) (nextId : ℤ) (s : String),
      Action.emitFrame s ∈ generate_response sha fR cid now items full ledger nextId →
      wire_frame_shapes fR s := by
  intro items
  induction items with
  | nil =>
      intro full ledger nextId s hs
      simp [generate_response] at hs
  | cons it rest ih =>
      intro full ledger nextId s hs
      obtain ⟨t, meta⟩ := it
      cases meta with
      | content c =>
          simp only [generate_response, List.mem_cons] at hs
          rcases hs with h | h
          · cases h
            exact Or.inl ⟨t, rfl⟩
          · exact ih _ _ _ _ h
      | complete a b c d e f =>
          simp only [generate_response, List.mem_cons] at hs
          rcases hs with h | h | h | h
          · exact absurd h (by simp)
          · exact absurd h (by simp)
          · cases h
            exact Or.inr (Or.inl ⟨nextId, d, rfl⟩)
          · exact ih _ _ _ _ h
      | error a b c =>
          simp only [generate_response, List.mem_cons] at hs
          rcases hs with h | h | h
          · exact absurd h (by simp)
          · cases h
            exact Or.inr (Or.inr ⟨a, rfl⟩)
          · exact ih _ _ _ _ h

/-- On a run of content-only items the generator emits exactly their
chunk frames: no row is written and no aggregate is touched. -/
theorem generate_response_all_content (sha : String → String)
    (fR : ℚ → String) (cid now : ℤ) :
    ∀ (items : List (String × StreamMeta)),
      (∀ x ∈ items, ∃ s, x = (s, StreamMeta.content s)) →
      ∀ (full : String) (ledger : List StoredMessage) (nextId : ℤ),
        generate_response sha fR cid now items full ledger nextId =
          items.map (fun x => Action.emitFrame (sse_frame (chunk_payload x.1))) := by
  intro items
  induction items with
  | nil => intro _ full ledger nextId; rfl
  | cons it rest ih =>
      intro h full ledger nextId
      obtain ⟨s, hs⟩ := h it (List.mem_cons_self it rest)
      subst hs
      simp only [generate_response, List.map_cons]
      rw [ih (fun x hx => h x (List.mem_cons_of_mem _ hx))]

/-- Splitting the generator's run at a content-only prefix. -/
theorem generate_response_append_content (sha : String → String)
    (fR : ℚ → String) (cid now : ℤ) :
    ∀ (cs : List (String × StreamMeta)),
      (∀ x ∈ cs, ∃ s, x = (s, StreamMeta.content s)) →
      ∀ (rest : List (String × StreamMeta)) (full : String)
        (ledger : List StoredMessage) (nextId : ℤ),
        generate_response sha fR cid now (cs ++ rest) full ledger nextId =
          cs.map (fun x => Action.emitFrame (sse_frame (chunk_payload x.1)))
            ++ generate_response sha fR cid now rest full ledger nextId := by
  intro cs
  induction cs with
  | nil => intro _ rest full ledger nextId; rfl
  | cons it cs ih =>
      intro h rest full ledger nextId
      obtain ⟨s, hs⟩ := h it (List.mem_cons_self it cs)
      subst hs
      simp only [List.cons_append, generate_response, List.map_cons, List.cons.injEq,
        List.append_eq]
      refine ⟨trivial, ?_⟩
      rw [ih (fun x hx => h x (List.mem_cons_of_mem _ hx)),
        generate_response_full_irrelevant sha fR cid now rest (full ++ s) full]

/-- A trace without aggregate updates leaves the conversation's
aggregate fields unchanged. -/
theorem applyActions_of_no_update :
    ∀ (tr : List Action), statsUpdateCount tr = 0 →
      ∀ agg : ConversationAgg, applyActions agg tr = agg := by
  intro tr
  induction tr with
  | nil => intro _ agg; rfl
  | cons a tr ih =>
      intro h agg
      cases a with
      | writeMessage m =>
          simp only [statsUpdateCount, List.filter_cons] at h ih ⊢
          simp only [applyActions, List.foldl_cons]
          exact ih (by simpa [statsUpdateCount] using h) agg
      | updateStats mc tt ec lm =>
          exfalso
          simp [statsUpdateCount, List.filter_cons] at h
      | emitFrame s =>
          simp only [applyActions, List.foldl_cons]
          exact ih (by simpa [statsUpdateCount, List.filter_cons] using h) agg

/-- Chunk frames contribute nothing to the write and update counts. -/
theorem counts_of_chunk_frames (xs : List (String × StreamMeta)) :
    messageWriteCount (xs.map (fun x => Action.emitFrame (sse_frame (chunk_payload x.1)))) = 0 ∧
    errorWriteCount (xs.map (fun x => Action.emitFrame (sse_frame (chunk_payload x.1)))) = 0 ∧
    statsUpdateCount (xs.map (fun x => Action.emitFrame (sse_frame (chunk_payload x.1)))) = 0 := by
  induction xs with
  | nil => exact ⟨rfl, rfl, rfl⟩
  | cons x xs ih =>
      simpa [messageWriteCount, errorWriteCount, statsUpdateCount, List.filter_cons]
        using ih

theorem messageWriteCount_append (a b : List Action) :
    messageWriteCount (a ++ b) = messageWriteCount a + messageWriteCount b := by
  simp [messageWriteCount, List.filter_append]

theorem errorWriteCount_append (a b : List Action) :
    errorWriteCount (a ++ b) = errorWriteCount a + errorWriteCount b := by
  simp [errorWriteCount, List.filter_append]

theorem statsUpdateCount_append (a b : List Action) :
    statsUpdateCount (a ++ b) = statsUpdateCount a + statsUpdateCount b := by
  simp [statsUpdateCount, List.filter_append]

theorem messageWriteCount_cons_write (m : StoredMessage) (tr : List Action) :
    messageWriteCount (Action.writeMessage m :: tr) = messageWriteCount tr + 1 := by
  simp [messageWriteCount, List.filter_cons]

theorem errorWriteCount_cons_write (m : StoredMessage) (tr : List Action) :
    errorWriteCount (Action.writeMessage m :: tr) =
      (if m.is_error then 1 else 0) + errorWriteCount tr := by
  by_cases h : m.is_error
  · simp [errorWriteCount, List.filter_cons, h]
    omega
  · simp [errorWriteCount, List.filter_cons, h]

theorem statsUpdateCount_cons_write (m : StoredMessage) (tr : List Action) :
    statsUpdateCount (Action.writeMessage m :: tr) = statsUpdateCount tr := by
  simp [statsUpdateCount, List.filter_cons]

/-- Inversion of `send_message`: a streaming result arises only on the
fully validated path, with the trace it then produces. -/
theorem send_message_stream_inv (sha : String → String) (fR : ℚ → String)
    (env : SendEnv) (req : ChatRequest) (run : ProviderRun)
    (ledger : List StoredMessage) (nextId now : ℤ) (ptime : ℚ)
    (exc : Option (ℕ × String)) (tr : List Action)
    (h : send_message sha fR env req run ledger nextId now ptime exc =
      SendResult.stream tr) :
    ∃ conversation, env.conversation = some conversation ∧
      tr = Action.writeMessage (user_row sha nextId now conversation req) ::
        generate_response_run sha fR conversation.id now
          (adapter_items req conversation run ptime)
          (ledger ++ [user_row sha nextId now conversation req]) (nextId + 1) exc := by
  unfold send_message at h
  by_cases hcc : env.can_create_conversations
  · cases hconv : env.conversation with
    | none =>
        rw [hconv] at h
        simp [hcc] at h
    | some conversation =>
        rw [hconv] at h
        simp only [hcc, not_true_eq_false, if_false] at h
        by_cases hl : MAX_MESSAGE_LENGTH < req.message.length
        · rw [if_pos hl] at h
          cases h
        · rw [if_neg hl] at h
          by_cases had : env.adapter_available
          · by_cases hkey : env.key_valid
            · simp only [had, hkey, not_true_eq_false, if_false] at h
              injection h with h2
              exact ⟨conversation, rfl, h2.symm⟩
            · simp [had, hkey] at h
          · simp [had] at h
  · simp [hcc] at h

/-- Every adapter stream is a list of content pairs followed by one
terminal item. -/
theorem generate_stream_shape (run : ProviderRun) (messages : List ChatMsg)
    (ai_model : String) (ptime : ℚ) :
    ∃ (ss : List String) (t : String × StreamMeta),
      generate_stream run messages ai_model ptime =
        (ss.map fun s => (s, StreamMeta.content s)) ++ [t] := by
  unfold generate_stream
  cases run.failAt <;> exact ⟨_, _, rfl⟩

/-! ## Claim theorems -/

/-- C7: `calculate_cost` is a pure function of its arguments and the
static price table; for every model absent from the table it returns
exactly `0`; for every model in the table it is non-decreasing in
`total_tokens` at fixed `completion_tokens` and non-decreasing in
`completion_tokens` at fixed `total_tokens`. -/
theorem C7_calculate_cost_unknown_zero_and_monotone :
    (∀ m t c, model_pricing m = none → calculate_cost m t c = 0) ∧
    (∀ m p, model_pricing m = some p →
      (∀ t₁ t₂ c, t₁ ≤ t₂ → calculate_cost m t₁ c ≤ calculate_cost m t₂ c) ∧
      (∀ t c₁ c₂, c₁ ≤ c₂ → calculate_cost m t c₁ ≤ calculate_cost m t c₂)) := by
  constructor
  · intro m t c h
    unfold calculate_cost
    rw [h]
  · intro m p h
    obtain ⟨h0, h1⟩ := model_pricing_rates m p h
    constructor
    · intro t₁ t₂ c hle
      unfold calculate_cost
      rw [h]
      have hc : (t₁ : ℚ) ≤ (t₂ : ℚ) := by exact_mod_cast hle
      simp only
      push_cast
      nlinarith
    · intro t c₁ c₂ hle
      unfold calculate_cost
      rw [h]
      have hc : (c₁ : ℚ) ≤ (c₂ : ℚ) := by exact_mod_cast hle
      simp only
      push_cast
      nlinarith

/-- C10: the `ChatRequest` message validator raises exactly when the
submitted text is empty or whitespace-only (its strip is empty), and
otherwise returns the text stripped of leading and trailing whitespace —
so every accepted message is non-empty and already stripped. -/
theorem C10_message_validator :
    (∀ v, message_not_empty v = Except.error "Message cannot be empty" ↔ pyStrip v = "") ∧
    (∀ v w, message_not_empty v = Except.ok w →
      w = pyStrip v ∧ w ≠ "" ∧ pyStrip w = w) := by
  constructor
  · intro v
    constructor
    · intro h
      unfold message_not_empty at h
      split_ifs at h with hc
      rcases hc with hv | hv
      · rw [hv]
        rfl
      · exact hv
    · intro h
      unfold message_not_empty
      rw [if_pos (Or.inr h)]
  · intro v w h
    unfold message_not_empty at h
    by_cases hc : v = "" ∨ pyStrip v = ""
    · rw [if_pos hc] at h
      exact Except.noConfusion h
    · rw [if_neg hc] at h
      push_neg at hc
      have hw : pyStrip v = w := by
        injection h
      refine ⟨hw.symm, ?_, ?_⟩
      · rw [← hw]
        exact hc.2
      · rw [← hw]
        exact pyStrip_idempotent v

/-- C5: every invocation of the adapter's `generate_stream` produces a
finite sequence consisting of zero or more content items followed by
exactly one terminal item; when the provider call fails the terminal
item is the error event carrying the failure text (the embedding is a
total function: no exception propagates to the caller). -/
theorem C5_stream_terminates_with_one_terminal :
    ∀ (run : ProviderRun) (messages : List ChatMsg) (ai_model : String) (ptime : ℚ),
      ∃ cs t, generate_stream run messages ai_model ptime = cs ++ [t] ∧
        (∀ x ∈ cs, ∃ s, x = (s, StreamMeta.content s)) ∧
        ((∃ e, run.failAt = some e ∧
            t = ("Error: " ++ e.2, StreamMeta.error e.2 ptime ai_model)) ∨
          (run.failAt = none ∧ ∃ total completion cost full,
            t = ("", StreamMeta.complete total completion ptime cost ai_model full))) := by
  intro run messages ai_model ptime
  unfold generate_stream
  cases hf : run.failAt with
  | some e =>
      refine ⟨_, _, rfl, ?_, Or.inl ⟨e, rfl, rfl⟩⟩
      intro x hx
      rcases List.mem_map.mp hx with ⟨s, _, rfl⟩
      exact ⟨s, rfl⟩
  | none =>
      refine ⟨_, _, rfl, ?_, Or.inr ⟨rfl, _, _, _, _, rfl⟩⟩
      intro x hx
      rcases List.mem_map.mp hx with ⟨s, _, rfl⟩
      exact ⟨s, rfl⟩

/-- C2: for every request that passes validation, the endpoint's trace
begins with the user-row write — committed before any adapter item is
consumed and before any frame is emitted — and no later action on any
execution path (success, provider error, injected exception; hence also
on any prefix delivered before a client disconnect) writes another
user-role row. -/
theorem C2_user_message_written_first (sha : String → String) (fR : ℚ → String)
    (env : SendEnv) (req : ChatRequest) (run : ProviderRun)
    (ledger : List StoredMessage) (nextId now : ℤ) (ptime : ℚ)
    (exc : Option (ℕ × String)) (conversation : Conversation)
    (hcc : env.can_create_conversations = true)
    (hconv : env.conversation = some conversation)
    (hlen : req.message.length ≤ MAX_MESSAGE_LENGTH)
    (had : env.adapter_available = true)
    (hkey : env.key_valid = true) :
    ∃ rest, send_message sha fR env req run ledger nextId now ptime exc =
        SendResult.stream (Action.writeMessage
          (user_row sha nextId now conversation req) :: rest) ∧
      (user_row sha nextId now conversation req).role = "user" ∧
      ∀ m, Action.writeMessage m ∈ rest → m.role = "assistant" := by
  unfold send_message
  rw [hconv]
  simp only [hcc, had, hkey, not_true_eq_false, if_false,
    if_neg (Nat.not_lt.mpr hlen)]
  refine ⟨_, rfl, rfl, ?_⟩
  intro m hm
  unfold generate_response_run at hm
  cases exc with
  | none => exact generate_response_writes_role sha fR conversation.id now _ _ _ _ m hm
  | some e =>
      rcases List.mem_append.mp hm with h | h
      · exact generate_response_writes_role sha fR conversation.id now _ _ _ _ m h
      · simp at h

/-- C2 witness: a concrete valid request on the fixture environment. -/
theorem C2_user_message_written_first_witness :
    ∃ rest, send_message hashFx floatFx envFx reqFx ⟨[], none⟩ [] 1 0 0 none =
        SendResult.stream (Action.writeMessage
          (user_row hashFx 1 0 convFx reqFx) :: rest) ∧
      (user_row hashFx 1 0 convFx reqFx).role = "user" ∧
      ∀ m, Action.writeMessage m ∈ rest → m.role = "assistant" :=
  C2_user_message_written_first hashFx floatFx envFx reqFx ⟨[], none⟩ [] 1 0 0
    none convFx rfl rfl (by decide) rfl rfl

/-- C6: an invalid credential, an unknown conversation, or an
over-length message makes the endpoint fail synchronously with an HTTP
error: no row is written and no SSE stream is opened. -/
theorem C6_validation_failure_no_write_no_stream (sha : String → String)
    (fR : ℚ → String) (env : SendEnv) (req : ChatRequest) (run : ProviderRun)
    (ledger : List StoredMessage) (nextId now : ℤ) (ptime : ℚ)
    (exc : Option (ℕ × String))
    (h : env.key_valid = false ∨ env.conversation = none ∨
      MAX_MESSAGE_LENGTH < req.message.length) :
    ∃ code, send_message sha fR env req run ledger nextId now ptime exc =
        SendResult.httpError code ∧
      ∀ tr, send_message sha fR env req run ledger nextId now ptime exc ≠
        SendResult.stream tr := by
  have key : ∃ code, send_message sha fR env req run ledger nextId now ptime exc =
      SendResult.httpError code := by
    by_cases hcc : env.can_create_conversations
    · cases hconv : env.conversation with
      | none => exact ⟨404, by simp [send_message, hcc, hconv]⟩
      | some c =>
          by_cases hl : MAX_MESSAGE_LENGTH < req.message.length
          · exact ⟨400, by simp [send_message, hcc, hconv, hl]⟩
          · have hkey : env.key_valid = false := by
              rcases h with h | h | h
              · exact h
              · rw [hconv] at h
                cases h
              · exact absurd h hl
            by_cases had : env.adapter_available
            · exact ⟨400, by simp [send_message, hcc, hconv, hl, had, hkey]⟩
            · exact ⟨500, by simp [send_message, hcc, hconv, hl, had]⟩
    · exact ⟨403, by simp [send_message, hcc]⟩
  obtain ⟨code, hc⟩ := key
  exact ⟨code, hc, fun tr h2 => SendResult.noConfusion (hc.symm.trans h2)⟩

/-- C6 witness: a concrete request with an invalid credential. -/
theorem C6_validation_failure_no_write_no_stream_witness :
    ∃ code, send_message hashFx floatFx ⟨true, some convFx, true, false⟩ reqFx
        ⟨[], none⟩ [] 1 0 0 none = SendResult.httpError code ∧
      ∀ tr, send_message hashFx floatFx ⟨true, some convFx, true, false⟩ reqFx
        ⟨[], none⟩ [] 1 0 0 none ≠ SendResult.stream tr :=
  C6_validation_failure_no_write_no_stream hashFx floatFx
    ⟨true, some convFx, true, false⟩ reqFx ⟨[], none⟩ [] 1 0 0 none (Or.inl rfl)

/-- C4 counterexample: when the iteration itself raises (exception
injected before the first item is processed), the handler emits the
error frame but writes no message row at all — not the one error-flagged
row the claim requires for that case. -/
theorem C4_counterexample :
    send_message hashFx floatFx envFx reqFx ⟨[⟨some "Hi", none⟩], none⟩ [] 1 0 0
        (some (0, "boom")) =
      SendResult.stream
        [Action.writeMessage (user_row hashFx 1 0 convFx reqFx),
         Action.emitFrame (sse_frame (error_payload "boom"))] ∧
    errorWriteCount
        [Action.writeMessage (user_row hashFx 1 0 convFx reqFx),
         Action.emitFrame (sse_frame (error_payload "boom"))] = 0 := by
  exact ⟨rfl, rfl⟩

/-- C4 amended: when the adapter reports the failure through its
terminal error event, exactly one error-flagged assistant row (with
`error_type = "api_error"`) is written and the conversation aggregates
are untouched; when the iteration itself raises before the terminal item
is processed, the handler emits an error frame but writes no further
row, and the aggregates are again untouched. -/
theorem C4_failed_generation_one_error_write (sha : String → String)
    (fR : ℚ → String) (env : SendEnv) (req : ChatRequest) (run : ProviderRun)
    (ledger : List StoredMessage) (nextId now : ℤ) (ptime : ℚ)
    (conversation : Conversation)
    (hcc : env.can_create_conversations = true)
    (hconv : env.conversation = some conversation)
    (hlen : req.message.length ≤ MAX_MESSAGE_LENGTH)
    (had : env.adapter_available = true)
    (hkey : env.key_valid = true) :
    (∀ e, run.failAt = some e →
      ∃ tr, send_message sha fR env req run ledger nextId now ptime none =
          SendResult.stream tr ∧
        errorWriteCount tr = 1 ∧
        (∃ m, Action.writeMessage m ∈ tr ∧ m.is_error = true ∧
          m.role = "assistant" ∧ m.error_type = some "api_error") ∧
        statsUpdateCount tr = 0 ∧
        (∀ agg, applyActions agg tr = agg)) ∧
    (∀ j emsg, j < (adapter_items req conversation run ptime).length →
      ∃ tr, send_message sha fR env req run ledger nextId now ptime
          (some (j, emsg)) = SendResult.stream tr ∧
        messageWriteCount tr = 1 ∧ errorWriteCount tr = 0 ∧
        statsUpdateCount tr = 0 ∧
        (∀ agg, applyActions agg tr = agg)) := by
  have hred : ∀ exc, send_message sha fR env req run ledger nextId now ptime exc =
      SendResult.stream (Action.writeMessage (user_row sha nextId now conversation req) ::
        generate_response_run sha fR conversation.id now
          (adapter_items req conversation run ptime)
          (ledger ++ [user_row sha nextId now conversation req]) (nextId + 1) exc) := by
    intro exc
    unfold send_message
    rw [hconv]
    simp only [hcc, had, hkey, not_true_eq_false, if_false,
      if_neg (Nat.not_lt.mpr hlen)]
  constructor
  · intro e hf
    have hitems : adapter_items req conversation run ptime =
        (((run.chunks.take e.1).filterMap truthyDelta).map
          (fun s => (s, StreamMeta.content s)))
        ++ [("Error: " ++ e.2,
             StreamMeta.error e.2 ptime (adapter_model req conversation))] := by
      unfold adapter_items generate_stream
      rw [hf]
    refine ⟨_, hred none, ?_⟩
    rw [show ∀ it lg n₀, generate_response_run sha fR conversation.id now it lg n₀ none =
        generate_response sha fR conversation.id now it "" lg n₀ from fun _ _ _ => rfl,
      hitems,
      generate_response_append_content sha fR conversation.id now _
        (by intro x hx; rcases List.mem_map.mp hx with ⟨s, _, rfl⟩; exact ⟨s, rfl⟩)]
    simp only [generate_response]
    have hcnt := counts_of_chunk_frames
      (((run.chunks.take e.1).filterMap truthyDelta).map
        (fun s => (s, StreamMeta.content s)))
    have h0 : statsUpdateCount
        (Action.writeMessage (user_row sha nextId now conversation req) ::
          ((((run.chunks.take e.1).filterMap truthyDelta).map
              (fun s => (s, StreamMeta.content s))).map
            (fun x => Action.emitFrame (sse_frame (chunk_payload x.1))) ++
          [Action.writeMessage (MessageRepository_create sha (nextId + 1) now
              conversation.id "assistant" ("Error: " ++ e.2) 0 none 0
              (some ptime) true (some "api_error") none),
           Action.emitFrame (sse_frame (error_payload e.2))])) = 0 := by
      rw [statsUpdateCount_cons_write, statsUpdateCount_append, hcnt.2.2]
      rfl
    refine ⟨?_, ?_, h0, applyActions_of_no_update _ h0⟩
    · rw [errorWriteCount_cons_write, errorWriteCount_append, hcnt.2.1]
      simp [user_row, MessageRepository_create]
      rfl
    · refine ⟨MessageRepository_create sha (nextId + 1) now conversation.id
        "assistant" ("Error: " ++ e.2) 0 none 0 (some ptime) true
        (some "api_error") none, ?_, rfl, rfl, rfl⟩
      simp
  · intro j emsg hj
    obtain ⟨ss, t, hsh⟩ := generate_stream_shape run
      (build_messages conversation req.message) (adapter_model req conversation) ptime
    have hsh' : adapter_items req conversation run ptime =
        (ss.map fun s => (s, StreamMeta.content s)) ++ [t] := hsh
    have hjs : j ≤ ss.length := by
      rw [hsh'] at hj
      simp at hj
      omega
    have htake : (adapter_items req conversation run ptime).take j =
        (ss.take j).map fun s => (s, StreamMeta.content s) := by
      rw [hsh', List.take_append_of_le_length (by simpa using hjs),
        ← List.map_take]
    refine ⟨_, hred (some (j, emsg)), ?_⟩
    rw [show ∀ it lg n₀, generate_response_run sha fR conversation.id now it lg n₀
          (some (j, emsg)) =
        generate_response sha fR conversation.id now (it.take j) "" lg n₀ ++
          [Action.emitFrame (sse_frame (error_payload emsg))] from fun _ _ _ => rfl,
      htake,
      generate_response_all_content sha fR conversation.id now _
        (by intro x hx; rcases List.mem_map.mp hx with ⟨s, _, rfl⟩; exact ⟨s, rfl⟩)]
    have hcnt := counts_of_chunk_frames ((ss.take j).map fun s => (s, StreamMeta.content s))
    have h0 : statsUpdateCount
        (Action.writeMessage (user_row sha nextId now conversation req) ::
          ((((ss.take j).map fun s => (s, StreamMeta.content s)).map
            (fun x => Action.emitFrame (sse_frame (chunk_payload x.1)))) ++
          [Action.emitFrame (sse_frame (error_payload emsg))])) = 0 := by
      rw [statsUpdateCount_cons_write, statsUpdateCount_append, hcnt.2.2]
      rfl
    refine ⟨?_, ?_, h0, applyActions_of_no_update _ h0⟩
    · rw [messageWriteCount_cons_write, messageWriteCount_append, hcnt.1]
      rfl
    · rw [errorWriteCount_cons_write, errorWriteCount_append, hcnt.2.1]
      simp [user_row, MessageRepository_create]
      rfl

/-- C4 witness: the amended statement at a concrete failing run. -/
theorem C4_failed_generation_one_error_write_witness :
    (∀ e, (ProviderRun.mk [⟨some "Hi", none⟩] (some (1, "bad"))).failAt = some e →
      ∃ tr, send_message hashFx floatFx envFx reqFx
          ⟨[⟨some "Hi", none⟩], some (1, "bad")⟩ [] 1 0 0 none =
          SendResult.stream tr ∧
        errorWriteCount tr = 1 ∧
        (∃ m, Action.writeMessage m ∈ tr ∧ m.is_error = true ∧
          m.role = "assistant" ∧ m.error_type = some "api_error") ∧
        statsUpdateCount tr = 0 ∧
        (∀ agg, applyActions agg tr = agg)) ∧
    (∀ j emsg,
      j < (adapter_items reqFx convFx ⟨[⟨some "Hi", none⟩], some (1, "bad")⟩ 0).length →
      ∃ tr, send_message hashFx floatFx envFx reqFx
          ⟨[⟨some "Hi", none⟩], some (1, "bad")⟩ [] 1 0 0 (some (j, emsg)) =
          SendResult.stream tr ∧
        messageWriteCount tr = 1 ∧ errorWriteCount tr = 0 ∧
        statsUpdateCount tr = 0 ∧
        (∀ agg, applyActions agg tr = agg)) :=
  C4_failed_generation_one_error_write hashFx floatFx envFx reqFx
    ⟨[⟨some "Hi", none⟩], some (1, "bad")⟩ [] 1 0 0 convFx rfl rfl (by decide)
    rfl rfl

/-- C8 counterexample: the frames actually emitted have no `event:`
line — each is a bare `data: <json>\n\n` record, so the claimed wire
form `event: <name>\ndata: <json>\n\n` does not hold of any frame. -/
theorem C8_counterexample :
    send_message hashFx floatFx envFx reqFx ⟨[⟨some "Hi", none⟩], some (1, "boom")⟩
        [] 1 0 0 none =
      SendResult.stream
        [Action.writeMessage (user_row hashFx 1 0 convFx reqFx),
         Action.emitFrame (sse_frame (chunk_payload "Hi")),
         Action.writeMessage (MessageRepository_create hashFx 2 0 1 "assistant"
           "Error: boom" 0 none 0 (some 0) true (some "api_error") none),
         Action.emitFrame (sse_frame (error_payload "boom"))] ∧
    sse_frame (chunk_payload "Hi") =
      "data: \x7b\"content\": \"Hi\", \"type\": \"chunk\"\x7d\n\n" ∧
    (sse_frame (chunk_payload "Hi")).data.take 6 ≠ "event:".data ∧
    sse_frame (error_payload "boom") =
      "data: \x7b\"type\": \"error\", \"error\": \"boom\"\x7d\n\n" ∧
    (sse_frame (error_payload "boom")).data.take 6 ≠ "event:".data := by
  refine ⟨rfl, ?_, ?_, ?_, ?_⟩ <;> decide

/-- C8 amended: every frame the chat streaming response writes has the
wire form `data: <json>\n\n` (no `event:` line), and the JSON payload is
exactly one of the three shapes chunk / complete / error. -/
theorem C8_every_frame_data_json (sha : String → String) (fR : ℚ → String)
    (env : SendEnv) (req : ChatRequest) (run : ProviderRun)
    (ledger : List StoredMessage) (nextId now : ℤ) (ptime : ℚ)
    (exc : Option (ℕ × String)) (tr : List Action)
    (h : send_message sha fR env req run ledger nextId now ptime exc =
      SendResult.stream tr) :
    tr.Forall (frame_shape_ok fR) := by
  obtain ⟨conversation, hconv, htr⟩ :=
    send_message_stream_inv sha fR env req run ledger nextId now ptime exc tr h
  subst htr
  rw [List.forall_iff_forall_mem]
  intro a ha
  rcases List.mem_cons.mp ha with rfl | ha
  · trivial
  cases a with
  | writeMessage m => trivial
  | updateStats mc tt ec lm => trivial
  | emitFrame s =>
      show wire_frame_shapes fR s
      unfold generate_response_run at ha
      cases exc with
      | none =>
          exact generate_response_frames_shape sha fR conversation.id now _ _ _ _ s ha
      | some e =>
          rcases List.mem_append.mp ha with h1 | h1
          · exact generate_response_frames_shape sha fR conversation.id now _ _ _ _ s h1
          · have : Action.emitFrame s = Action.emitFrame (sse_frame (error_payload e.2)) := by
              simpa using h1
            injection this with h2
            exact Or.inr (Or.inr ⟨e.2, h2⟩)

/-- C8 witness: the amended statement on a concrete trace. -/
theorem C8_every_frame_data_json_witness :
    ([Action.writeMessage (user_row hashFx 1 0 convFx reqFx),
      Action.emitFrame (sse_frame (chunk_payload "Hi")),
      Action.writeMessage (MessageRepository_create hashFx 2 0 1 "assistant"
        "Error: boom" 0 none 0 (some 0) true (some "api_error") none),
      Action.emitFrame (sse_frame (error_payload "boom"))] : List Action).Forall
      (frame_shape_ok floatFx) :=
  C8_every_frame_data_json hashFx floatFx envFx reqFx
    ⟨[⟨some "Hi", none⟩], some (1, "boom")⟩ [] 1 0 0 none _ rfl

/-- C9 counterexample: for a 3-character completion and a 1-character
prompt without provider usage, the adapter estimates 0 tokens, which is
not within ±25% of `len(fullText)/4 + len(prompt)/4 = 1`. -/
theorem C9_counterexample :
    (generate_stream ⟨[⟨some "abc", none⟩], none⟩ [⟨"user", "a"⟩] "gpt-4o" 0).getLast? =
      some ("", StreamMeta.complete 0 0 0 (calculate_cost "gpt-4o" 0 0) "gpt-4o" "abc") ∧
    ¬ |((0 : ℤ) : ℚ) - (("abc".length : ℚ) / 4 + ((promptLen [⟨"user", "a"⟩] : ℕ) : ℚ) / 4)| ≤
        1 / 4 * (("abc".length : ℚ) / 4 + ((promptLen [⟨"user", "a"⟩] : ℕ) : ℚ) / 4) := by
  constructor
  · rfl
  · have h1 : "abc".length = 3 := rfl
    have h2 : promptLen [⟨"user", "a"⟩] = 1 := rfl
    rw [h1, h2]
    intro hcontra
    rw [show ((3 : ℕ) : ℚ) / 4 + ((1 : ℕ) : ℚ) / 4 = 1 by norm_num] at hcontra
    rw [show ((0 : ℤ) : ℚ) - 1 = -1 by norm_num, abs_neg, abs_one] at hcontra
    norm_num at hcontra

/-- C9 amended: on a stream without provider-reported usage the adapter
estimates `len(fullText)//4` completion and `len(prompt)//4` input
tokens; whenever the combined text is at least 24 characters the
estimated total is within ±25% of `len(fullText)/4 + len(prompt)/4`
(shorter texts can fall outside the band through floor division). -/
theorem C9_estimation_within_tolerance (run : ProviderRun)
    (messages : List ChatMsg) (ai_model : String) (ptime : ℚ)
    (hnofail : run.failAt = none)
    (hnousage : (usageFold run.chunks).1 = 0)
    (hlen : 24 ≤ (String.join (run.chunks.filterMap truthyDelta)).length +
      promptLen messages) :
    ∃ f p : ℕ, f = (String.join (run.chunks.filterMap truthyDelta)).length ∧
      p = promptLen messages ∧
      (generate_stream run messages ai_model ptime).getLast? =
        some ("", StreamMeta.complete ((f / 4 + p / 4 : ℕ) : ℤ) ((f / 4 : ℕ) : ℤ)
          ptime (calculate_cost ai_model ((f / 4 + p / 4 : ℕ) : ℤ) ((f / 4 : ℕ) : ℤ))
          ai_model (String.join (run.chunks.filterMap truthyDelta))) ∧
      |((f / 4 + p / 4 : ℕ) : ℚ) - ((f : ℚ) / 4 + (p : ℚ) / 4)| ≤
        1 / 4 * ((f : ℚ) / 4 + (p : ℚ) / 4) := by
  refine ⟨_, _, rfl, rfl, ?_, ?_⟩
  · unfold generate_stream
    rw [hnofail]
    simp only [if_pos hnousage]
    rw [List.getLast?_concat]
  · set f := (String.join (run.chunks.filterMap truthyDelta)).length with hf
    set p := promptLen messages with hp
    have hfq : (f : ℚ) = 4 * ((f / 4 : ℕ) : ℚ) + ((f % 4 : ℕ) : ℚ) := by
      exact_mod_cast (Nat.div_add_mod f 4).symm
    have hpq : (p : ℚ) = 4 * ((p / 4 : ℕ) : ℚ) + ((p % 4 : ℕ) : ℚ) := by
      exact_mod_cast (Nat.div_add_mod p 4).symm
    have hfm : ((f % 4 : ℕ) : ℚ) ≤ 3 := by
      exact_mod_cast Nat.le_of_lt_succ (Nat.mod_lt f (by norm_num))
    have hpm : ((p % 4 : ℕ) : ℚ) ≤ 3 := by
      exact_mod_cast Nat.le_of_lt_succ (Nat.mod_lt p (by norm_num))
    have hfm0 : (0 : ℚ) ≤ ((f % 4 : ℕ) : ℚ) := by positivity
    have hpm0 : (0 : ℚ) ≤ ((p % 4 : ℕ) : ℚ) := by positivity
    have hlenq : (24 : ℚ) ≤ (f : ℚ) + (p : ℚ) := by exact_mod_cast hlen
    have hcast : ((f / 4 + p / 4 : ℕ) : ℚ) = ((f / 4 : ℕ) : ℚ) + ((p / 4 : ℕ) : ℚ) := by
      push_cast
      ring
    rw [hcast, abs_le]
    constructor
    · nlinarith
    · nlinarith

/-- C9 witness: a 24-character completion with an empty prompt. -/
theorem C9_estimation_within_tolerance_witness :
    ∃ f p : ℕ,
      f = (String.join ((ProviderRun.mk [⟨some "abcdabcdabcdabcdabcdabcd", none⟩]
        none).chunks.filterMap truthyDelta)).length ∧
      p = promptLen [] ∧
      (generate_stream ⟨[⟨some "abcdabcdabcdabcdabcdabcd", none⟩], none⟩ [] "m" 0).getLast? =
        some ("", StreamMeta.complete ((f / 4 + p / 4 : ℕ) : ℤ) ((f / 4 : ℕ) : ℤ)
          0 (calculate_cost "m" ((f / 4 + p / 4 : ℕ) : ℤ) ((f / 4 : ℕ) : ℤ))
          "m" (String.join ((ProviderRun.mk [⟨some "abcdabcdabcdabcdabcdabcd", none⟩]
            none).chunks.filterMap truthyDelta))) ∧
      |((f / 4 + p / 4 : ℕ) : ℚ) - ((f : ℚ) / 4 + (p : ℚ) / 4)| ≤
        1 / 4 * ((f : ℚ) / 4 + (p : ℚ) / 4) :=
  C9_estimation_within_tolerance ⟨[⟨some "abcdabcdabcdabcdabcdabcd", none⟩], none⟩
    [] "m" 0 rfl rfl (by decide)

/-- C1 evaluated at a concrete successful stream: the terminal complete
event's `full_content` is exactly the concatenation of the two content
deltas, but the assistant row committed for it carries only the digest
`sha256(fullText)` — `MessageRepository.create` persists no content
field, so rows for distinct texts with equal digests are identical. -/
theorem C1_round_trip_and_hash_only_storage :
    ∀ (sha : String → String) (fR : ℚ → String),
      ((adapter_items reqFx convFx ⟨[⟨some "Hel", none⟩, ⟨some "lo", none⟩], none⟩ 0).getLast? =
        some ("", StreamMeta.complete 1 1 0 (calculate_cost "gpt-4o" 1 1) "gpt-4o"
          ("Hel" ++ "lo"))) ∧
      (∃ tr, send_message sha fR envFx reqFx
          ⟨[⟨some "Hel", none⟩, ⟨some "lo", none⟩], none⟩ [] 1 0 0 none =
          SendResult.stream tr ∧
        ∃ m, Action.writeMessage m ∈ tr ∧ m.role = "assistant" ∧
          m.content_hash = sha ("Hel" ++ "lo")) ∧
      (∀ c₁ c₂ id created cid role tc am ce pt ie et mm, sha c₁ = sha c₂ →
        MessageRepository_create sha id created cid role c₁ tc am ce pt ie et mm =
        MessageRepository_create sha id created cid role c₂ tc am ce pt ie et mm) := by
  intro sha fR
  refine ⟨rfl, ?_, ?_⟩
  · have hitems : adapter_items reqFx convFx
        ⟨[⟨some "Hel", none⟩, ⟨some "lo", none⟩], none⟩ 0 =
        (["Hel", "lo"].map fun s => (s, StreamMeta.content s)) ++
          [("", StreamMeta.complete 1 1 0 (calculate_cost "gpt-4o" 1 1) "gpt-4o"
            ("Hel" ++ "lo"))] := rfl
    refine ⟨_, rfl, ?_⟩
    show ∃ m, Action.writeMessage m ∈
      Action.writeMessage (user_row sha 1 0 convFx reqFx) ::
        generate_response_run sha fR convFx.id 0
          (adapter_items reqFx convFx ⟨[⟨some "Hel", none⟩, ⟨some "lo", none⟩], none⟩ 0)
          ([] ++ [user_row sha 1 0 convFx reqFx]) (1 + 1) none ∧ _
    rw [show ∀ it lg n₀, generate_response_run sha fR convFx.id 0 it lg n₀ none =
        generate_response sha fR convFx.id 0 it "" lg n₀ from fun _ _ _ => rfl,
      hitems,
      generate_response_append_content sha fR convFx.id 0 _
        (by intro x hx; rcases List.mem_map.mp hx with ⟨s, _, rfl⟩; exact ⟨s, rfl⟩)]
    simp only [generate_response]
    exact ⟨_, List.mem_cons_of_mem _
      (List.mem_append_right _ (List.mem_cons_self _ _)), rfl, rfl⟩
  · intro c₁ c₂ id created cid role tc am ce pt ie et mm h
    simp [MessageRepository_create, h]

/-- C3 evaluated: the recent-messages query returns the conversation's
prior assistant turn, yet the message list handed to the adapter is just
the new user message — no entry of the loaded history appears in it. -/
theorem C3_history_loaded_but_not_passed :
    get_recent_messages [histRowFx] 1 100 = [histRowFx] ∧
    histRowFx.role = "assistant" ∧
    build_messages convFx "Hi" = [⟨"user", "Hi"⟩] ∧
    (build_messages convFx "Hi").filter (fun m => m.role == "assistant") = [] := by
  refine ⟨?_, rfl, rfl, rfl⟩
  simp [get_recent_messages, histRowFx]

end Uru
